import Mathlib

/-!
Verification development for the jukoro temporal entity-storage layer
(`jukoro/pg`): a shallow embedding of the attribute/entity declaration
model (`jukoro/pg/attrs.py`, `jukoro/pg/entity.py`), the SQL query
builder (`jukoro/pg/query.py`) and the schema registry / DDL sync
engine (`jukoro/pg/storage.py`), together with theorems settling the
spec claims about them.

Conventions of the embedding:
- Python scalar values appearing in entity documents are modelled by
  `PyScalar` (None / int / unicode string); query parameters, which may
  additionally be tuples or lists of scalars or whole documents, are
  modelled by `QueryParam`.
- Python exceptions raised by the modelled code are modelled by the
  `PyErr` type; fallible code returns `Except PyErr`.
- Python dicts are modelled as association lists with unique keys and
  first-match lookup; Python sets as lists with set-like removal.
- The `itertools.count` instance backing attribute ordinals is modelled
  by explicit counter passing (`Attr.new`, `mkAttrs`).
-/

/-- Scalar Python value stored in an entity document: `None`, an int or a
(unicode) string. -/
inductive PyScalar where
  | none
  | int (i : Int)
  | str (s : String)
deriving DecidableEq

/-- Python truthiness of a scalar: `None`, `0` and the empty string are
falsy, everything else is truthy. -/
def pyTruthy : PyScalar → Bool
  | PyScalar.none => false
  | PyScalar.int i => i != 0
  | PyScalar.str s => s != ""

/-- An entity document (the schemaless `doc` payload): a Python dict from
attribute slugs to scalar values, modelled as an association list. -/
def Doc : Type := List (String × PyScalar)

instance : DecidableEq Doc := by
  unfold Doc
  infer_instance

/-- Python `dict.get(key)`: first-match lookup returning `none` when the
key is absent. -/
def dictGet (d : Doc) (k : String) : Option PyScalar :=
  (d.find? (fun p => p.1 == k)).map (fun p => p.2)

/-- A positional SQL query parameter as produced by the query builder:
a scalar, a tuple of scalars (the `IN %s` argument), a list of scalars,
or a whole document (for `"doc"` inserts and `@>` containment tests). -/
inductive QueryParam where
  | scalar (v : PyScalar)
  | tuple (l : List PyScalar)
  | listP (l : List PyScalar)
  | doc (d : Doc)
deriving DecidableEq

/-- Python exceptions raised by the embedded code, by class:
`ValueError`, `AttributeError`, `RuntimeError` and the registry's
distinct already-registered error (`PgAlreadyRegisteredError`). -/
inductive PyErr where
  | valueError (msg : String)
  | attributeError (msg : String)
  | runtimeError (msg : String)
  | alreadyRegistered (msg : String)
deriving DecidableEq

/-- The `value_type` option of an attribute: one of the Python classes
`int`, `str`, `unicode`, `jukoro.arrow.JuArrow`, or any other class. -/
inductive ValueType where
  | int
  | str
  | unicode
  | juArrow
  | other
deriving DecidableEq

/-- `jukoro.pg.attrs.Attr` in a well-typed state: the attribute options
stored by `Attr.__init__` plus the ordinal `_idx` drawn from the global
counter (attrs.py lines 105-124). The optional `wrapper` callable is a
pure function on scalars. -/
structure Attr where
  db_index : Bool
  value_type : ValueType
  db_not_null : Bool
  title : String
  maxlen : Nat
  minlen : Nat
  wrapper : Option (PyScalar → PyScalar)
  idx : Nat

/-- `Attr.is_int` (attrs.py lines 133-147): true iff `value_type` is
`int` or `JuArrow`. -/
def Attr.is_int (a : Attr) : Bool :=
  a.value_type == ValueType.int || a.value_type == ValueType.juArrow

/-- `Attr.is_text` (attrs.py lines 149-156): true iff `value_type` is
`str` or `unicode`. -/
def Attr.is_text (a : Attr) : Bool :=
  a.value_type == ValueType.str || a.value_type == ValueType.unicode

/-- `Attr.db_cast` (attrs.py lines 168-178): `BIGINT` for int-like
attributes, `TEXT` otherwise. -/
def Attr.db_cast (a : Attr) : String :=
  if a.is_int then "BIGINT" else "TEXT"

/-- The recognised option fields of an `Attr`, without the ordinal; used
to model constructing attributes through the global counter. -/
structure AttrOpts where
  db_index : Bool
  value_type : ValueType
  db_not_null : Bool
  title : String
  maxlen : Nat
  minlen : Nat
  wrapper : Option (PyScalar → PyScalar)

/-- `Attr.__init__`'s final step `self._idx = next(_counter)` (attrs.py
line 124) with the module-global `itertools.count()` made explicit:
builds the attribute and advances the counter. -/
def Attr.new (o : AttrOpts) (counter : Nat) : Attr × Nat :=
  (⟨o.db_index, o.value_type, o.db_not_null, o.title, o.maxlen, o.minlen,
    o.wrapper, counter⟩, counter + 1)

/-- Sequence of attribute constructions through the shared counter, as
happens for the `Attr(...)` calls in a class body. -/
def mkAttrs : List AttrOpts → Nat → List Attr × Nat
  | [], c => ([], c)
  | o :: rest, c =>
      let p := Attr.new o c
      let q := mkAttrs rest p.2
      (p.1 :: q.1, q.2)

/-- `jukoro.pg.attrs.AttrDescr` (attrs.py lines 189-255): an `Attr`
bound to its slug on an entity type. -/
structure AttrDescr where
  slug : String
  attr : Attr

/-- A dynamic keyword-argument value as passed to `Attr(**kwargs)`:
a bool, a value type, a string, a non-negative int, a callable wrapper,
or Python `None`. -/
inductive OptVal where
  | b (b : Bool)
  | vt (t : ValueType)
  | s (s : String)
  | n (n : Nat)
  | noneV
deriving DecidableEq

/-- Python `kwargs.pop(key, default)` on a dict modelled as an
association list with unique keys: returns the stored value (or the
default) and the dict without that key. -/
def pyPop (kw : List (String × OptVal)) (k : String) (dflt : OptVal) :
    OptVal × List (String × OptVal) :=
  match kw.find? (fun p => p.1 == k) with
  | some p => (p.2, kw.filter (fun q => q.1 != k))
  | Option.none => (dflt, kw)

/-- The raw result of `Attr.__init__` on arbitrary kwargs: each field
holds exactly the value popped for its key (or the default), untouched
and unvalidated, plus the ordinal. -/
structure AttrDyn where
  db_index : OptVal
  value_type : OptVal
  db_not_null : OptVal
  title : OptVal
  maxlen : OptVal
  minlen : OptVal
  wrapper : OptVal
  idx : Nat
deriving DecidableEq

/-- `Attr.__init__` (attrs.py lines 108-124): pops the seven recognised
options with their defaults, assigns the ordinal, and returns. Any
leftover kwargs are dropped on the floor — the constructor performs no
check that `kwargs` ended up empty and raises nothing. -/
def Attr.init (kwargs : List (String × OptVal)) (counter : Nat) :
    AttrDyn × Nat :=
  let p1 := pyPop kwargs ("db_index") (OptVal.b false)
  let p2 := pyPop p1.2 ("value_type") (OptVal.vt ValueType.unicode)
  let p3 := pyPop p2.2 ("db_not_null") (OptVal.b true)
  let p4 := pyPop p3.2 ("title") (OptVal.s ("undefined"))
  let p5 := pyPop p4.2 ("maxlen") (OptVal.n 0)
  let p6 := pyPop p5.2 ("minlen") (OptVal.n 0)
  let p7 := pyPop p6.2 ("wrapper") (OptVal.noneV)
  (⟨p1.1, p2.1, p3.1, p4.1, p5.1, p6.1, p7.1, counter⟩, counter + 1)

/-- The recognised option names of `Attr.__init__`. -/
def recognisedOpts : List String :=
  [("db_index"), ("value_type"), ("db_not_null"), ("title"), ("maxlen"),
   ("minlen"), ("wrapper")]

/-- A constructed entity type: its class name, the names along its mro
(itself first, used for `isinstance` tests), the aggregated attribute
descriptors (own and inherited, deduplicated by slug, in pre-sort
order), and the wrapped `db_table` name when the type is concrete. -/
structure EntityClass where
  clsName : String
  mro : List String
  attrPairs : List AttrDescr
  db_table : Option String

/-- The `attrs` iteration of an entity type (`AttrsDescr.__get__`,
attrs.py lines 279-291): the attribute descriptors sorted ascending by
ordinal (Python `sorted` with key `idx`, modelled by a stable insertion
sort). -/
def EntityClass.attrs (k : EntityClass) : List AttrDescr :=
  List.insertionSort (fun a b => a.attr.idx ≤ b.attr.idx) k.attrPairs

/-- An `AbstractEntity` instance (entity.py lines 136-158): its class,
the optional numeric `entity_id` (absent before first save) and the
document holding raw attribute values. -/
structure AbstractEntity where
  cls : EntityClass
  entity_id : Option Int
  doc : Doc

/-- `AbstractEntity.__init__` (entity.py lines 156-158): stores
`entity_id` as given and `doc or {}` — a missing (or empty, hence
falsy) document becomes the empty dict. -/
def AbstractEntity.init (cls : EntityClass) (entity_id : Option Int)
    (doc : Option Doc) : AbstractEntity :=
  ⟨cls, entity_id, doc.getD []⟩

/-- `AttrDescr.__get__` on an instance (attrs.py lines 220-233): fetch
the raw value from the document by slug (Python `.get`, so a missing
key reads as `None`) and apply the wrapper when one is set. -/
def attrGet (a : AttrDescr) (inst : AbstractEntity) : PyScalar :=
  let val := (dictGet inst.doc a.slug).getD PyScalar.none
  match a.attr.wrapper with
  | some w => w val
  | Option.none => val

/-- The scalar value of an optional entity id, as Python sees it:
`None` or the int itself. -/
def optIdVal : Option Int → PyScalar
  | Option.none => PyScalar.none
  | some i => PyScalar.int i

/-- `QueryViewBuilder.fields` (query.py lines 129-137): the projected
columns `"entity_id","doc"`. -/
def QueryViewBuilder.fields : String := "\"entity_id\",\"doc\""

/-- `QueryViewBuilder.by_id` (query.py lines 139-162): validates that at
least one id was given and all are truthy, then builds a select with an
`=` predicate for a single id or an `IN` predicate (with the ids packed
into one tuple parameter) for several, ordered by `"entity_id"`
ascending. -/
def QueryViewBuilder.by_id (target : String) (ids : List PyScalar) :
    Except PyErr (String × List QueryParam) :=
  if ids.isEmpty || ids.any (fun i => !(pyTruthy i)) then
    Except.error (PyErr.valueError
      ("at least one \"entity_id\" must be defined to get instance"))
  else
    let op := if ids.length = 1 then ("=") else ("IN")
    let params := if ids.length = 1 then ids.map QueryParam.scalar
                  else [QueryParam.tuple ids]
    let whereS := "WHERE \"entity_id\" " ++ op ++ " %s"
    Except.ok
      (("SELECT " ++ QueryViewBuilder.fields ++ " FROM \"") ++ target ++
        ("\" " ++ whereS ++ " ORDER BY \"entity_id\" ASC;"), params)

/-- `QueryViewBuilder.create` (query.py lines 164-185): a multi-row
insert of the documents only, one `(%s)` placeholder and one document
parameter per entity, with a `RETURNING` clause; no validation of the
argument list happens. -/
def QueryViewBuilder.create (target : String)
    (entities : List AbstractEntity) : String × List QueryParam :=
  let placeholders := String.intercalate (",")
    (entities.map (fun _ => "(%s)"))
  let params := entities.map (fun e => QueryParam.doc e.doc)
  (("INSERT INTO \"") ++ target ++
     ("\" (\"doc\") VALUES " ++ placeholders ++ " RETURNING " ++
       QueryViewBuilder.fields ++ ";"), params)

/-- `QueryViewBuilder.update` (query.py lines 187-217): a bulk update
joining a `VALUES` list against the target on `entity_id`, replacing
`doc` wholesale; per entity one `(%s, %s)` placeholder and two
parameters (id and document); no validation of the argument list
happens. -/
def QueryViewBuilder.update (target : String)
    (entities : List AbstractEntity) : String × List QueryParam :=
  let placeholders := String.intercalate (",")
    (entities.map (fun _ => "(%s, %s)"))
  let params := entities.flatMap
    (fun e => [QueryParam.scalar (optIdVal e.entity_id), QueryParam.doc e.doc])
  (("UPDATE \"") ++ target ++
     ("\" AS t SET \"doc\" = (v.\"doc\")::jsonb FROM (VALUES " ++
       placeholders ++
       " ) AS v(\"entity_id\", \"doc\") WHERE v.\"entity_id\" = t.\"entity_id\" RETURNING t.\"entity_id\", t.\"doc\";"),
   params)

/-- Default truthiness of an `AbstractEntity` instance: the class
defines no `__bool__`/`__len__`, so every instance is truthy (this is
what `filter(None, entities)` in `delete` tests). -/
def instanceTruthy (_ : AbstractEntity) : Bool := true

/-- `QueryViewBuilder.delete` (query.py lines 219-250): filters falsy
entities (a no-op for plain instances), validates that entities remain
and every one has a truthy `entity_id`, then builds a delete with the
same `=`/`IN` policy as `by_id`. -/
def QueryViewBuilder.delete (target : String)
    (entities : List AbstractEntity) :
    Except PyErr (String × List QueryParam) :=
  let entities := entities.filter instanceTruthy
  if entities.isEmpty || entities.any (fun e => !(pyTruthy (optIdVal e.entity_id))) then
    Except.error (PyErr.valueError
      ("All entities to delete must have \"entity_id\" defined"))
  else
    let op := if entities.length = 1 then ("=") else ("IN")
    let ids := entities.map (fun e => optIdVal e.entity_id)
    let params := if entities.length > 1 then [QueryParam.tuple ids]
                  else ids.map QueryParam.scalar
    let whereS := "WHERE \"entity_id\" " ++ op ++ " %s"
    Except.ok ((("DELETE FROM \"") ++ target ++ ("\" " ++ whereS ++ ";")),
      params)

/-- The `OPS` operator table of query.py (lines 402-410). -/
def OPS : List (String × String) :=
  [(("eq"), ("=")), (("ne"), ("!=")), (("in"), ("IN")), (("lt"), ("<")),
   (("gt"), (">")), (("lte"), ("<=")), (("gte"), (">="))]

/-- `_transform_op` (query.py lines 413-416): translates a symbolic
operator through `OPS`, raising `ValueError` on an unknown one. -/
def _transform_op (op : String) : Except PyErr String :=
  match OPS.find? (fun p => p.1 == op) with
  | some p => Except.ok p.2
  | Option.none =>
      Except.error (PyErr.valueError ("Unknown operator \"" ++ op ++ "\""))

/-- Python `getattr(klass, attr)` resolved against the aggregated
attribute descriptors of an entity class; raises `AttributeError` when
the name is not an attribute of the class. -/
def pygetattr (k : EntityClass) (slug : String) : Except PyErr Attr :=
  match k.attrPairs.find? (fun a => a.slug == slug) with
  | some a => Except.ok a.attr
  | Option.none => Except.error (PyErr.attributeError (slug))

/-- A single condition group passed to `select`: either a dict (tested
with the jsonb containment operator) or a tuple of
`(attribute, operation, value)` triplets. -/
inductive Cond where
  | dict (d : Doc)
  | triplets (ts : List (String × String × QueryParam))

/-- The SQL fragment for one triplet (query.py lines 460-465): the
attribute read from `"doc"`, cast through the attribute's declared
`db_cast`, compared by the translated operator against a placeholder. -/
def tripletEntry (attr cast op : String) : String :=
  "(\"doc\"->>\x27" ++ attr ++ "\x27)::" ++ cast ++ " " ++ op ++ " %s"

/-- The inner loop of `_transform_conditions` over one triplet group
(query.py lines 459-466): for each triplet, translate the operator,
resolve the attribute for its cast, append the predicate to the block
and the value to the params. -/
def tripletLoop (k : EntityClass) :
    List (String × String × QueryParam) → List String → List QueryParam →
    Except PyErr (List String × List QueryParam)
  | [], block, params => Except.ok (block, params)
  | t :: rest, block, params => do
      let opS ← _transform_op t.2.1
      let a ← pygetattr k t.1
      tripletLoop k rest (block ++ [tripletEntry t.1 a.db_cast opS])
        (params ++ [t.2.2])

/-- The outer loop of `_transform_conditions` over the condition groups
(query.py lines 447-467): a dict group contributes a containment
placeholder and the dict as parameter; a triplet group contributes the
parenthesised `AND`-join of its block. -/
def condLoop (k : EntityClass) :
    List Cond → List String → List QueryParam →
    Except PyErr (List String × List QueryParam)
  | [], phs, params => Except.ok (phs, params)
  | Cond.dict d :: rest, phs, params =>
      condLoop k rest (phs ++ ["(\"doc\" @> %s)"])
        (params ++ [QueryParam.doc d])
  | Cond.triplets ts :: rest, phs, params => do
      let r ← tripletLoop k ts [] params
      condLoop k rest
        (phs ++ ["(" ++ String.intercalate (" AND ") r.1 ++ ")"]) r.2

/-- `_transform_conditions` (query.py lines 419-469): empty conditions
produce no `WHERE` clause; otherwise the groups are processed in order
and `OR`-joined into a single `WHERE` clause. -/
def _transform_conditions (k : EntityClass) (conditions : List Cond) :
    Except PyErr (String × List QueryParam) :=
  if conditions.isEmpty then Except.ok (("", []))
  else do
    let r ← condLoop k conditions [] []
    Except.ok ((" WHERE " ++ String.intercalate (" OR ") r.1, r.2))

/-- Sequential effectful map over `Except`, the order in which the
spec-shaped group predicate processes its triplets. -/
def mapME {α β : Type} (f : α → Except PyErr β) : List α → Except PyErr (List β)
  | [] => Except.ok []
  | a :: l => do
      let b ← f a
      let bs ← mapME f l
      Except.ok (b :: bs)

/-- The predicate fragment of one triplet: translate the operator and
resolve the attribute for its cast (the two fallible steps of the
triplet loop), yielding the cast comparison. -/
def entryM (k : EntityClass) (t : String × String × QueryParam) :
    Except PyErr String := do
  let opS ← _transform_op t.2.1
  let a ← pygetattr k t.1
  Except.ok (tripletEntry t.1 a.db_cast opS)

/-- Predicate of one condition group as the spec describes it (spec
section 4.4): a dict group is a single document-containment predicate
with the dict as its one parameter; a triplet group is the
`AND`-conjunction of cast comparisons with one parameter per triplet.
Stated independently of the source loop so that
`_transform_conditions` can be proved to refine it. -/
def groupPredicate (k : EntityClass) : Cond →
    Except PyErr (String × List QueryParam)
  | Cond.dict d => Except.ok (("(\"doc\" @> %s)", [QueryParam.doc d]))
  | Cond.triplets ts => do
      let entries ← mapME (entryM k) ts
      Except.ok
        (("(" ++ String.intercalate (" AND ") entries ++ ")"),
         ts.map (fun t => t.2.2))

/-- A SQL statement emitted by the storage layer, deeply embedded: one
constructor per template of storage.py, carrying exactly the template
variables. `initSchema` is the whole `INIT_SCHEMA` script (schema,
shared sequence, helper procedures and the base `entity` table,
storage.py lines 74-134); the four drop constructors are the `DROPS`
templates (lines 782-787). -/
inductive SqlStmt where
  | initSchema (schema : String)
  | createTable (db_table : String)
  | createView (db_table db_view : String)
  | createTrigger (suffix db_table db_view : String)
  | createIndex (db_table attr cast : String)
  | addConstraintInt (db_table attr : String)
  | addConstraintText (db_table attr : String) (minlen : Nat)
  | addConstraintNotNull (db_table attr : String)
  | dropIndex (name : String)
  | dropTable (name : String)
  | dropView (name : String)
  | dropConstraint (db_table name : String)
deriving DecidableEq

/-- `jukoro.pg.storage.Table` (storage.py lines 352-474) reduced to the
data its sql generators read: the table name and the sorted attribute
descriptors of the wrapped entity class. -/
structure TableM where
  db_table : String
  attrs : List AttrDescr

/-- `DBViewName` (storage.py lines 677-694): the live-view name is the
table name with the `__live` suffix. -/
def TableM.db_view (t : TableM) : String := t.db_table ++ "__live"

/-- `Table.tables` with `CreateTableSql.name` (storage.py lines
151-166, 409-416): one create-table statement named by the table. -/
def TableM.tableItems (t : TableM) : List (String × SqlStmt) :=
  [(t.db_table, SqlStmt.createTable t.db_table)]

/-- `Table.views` with `CreateViewSql.name` (storage.py lines 176-191,
418-426): one create-view statement named by the view. -/
def TableM.viewItems (t : TableM) : List (String × SqlStmt) :=
  [(t.db_view, SqlStmt.createView t.db_table t.db_view)]

/-- Trigger name scheme of `AbstractTrigger.name` (storage.py lines
204-211). -/
def triggerName (db_view suffix : String) : String :=
  "ju_before__" ++ db_view ++ "__" ++ suffix

/-- `Table.triggers` (storage.py lines 428-439): the insert, update and
delete instead-of triggers for the live view, in that order. -/
def TableM.triggerItems (t : TableM) : List (String × SqlStmt) :=
  [("insert"), ("update"), ("delete")].map
    (fun suf => (triggerName t.db_view suf,
      SqlStmt.createTrigger suf t.db_table t.db_view))

/-- `Index.name` (storage.py lines 507-515). -/
def indexName (db_table slug : String) : String :=
  "ju_idx__" ++ db_table ++ "__" ++ slug ++ "_entity_start_entity_end"

/-- `Table.indices` (storage.py lines 441-451): one index per attribute
with `db_index` set, cast through the attribute's `db_cast`. -/
def TableM.indexItems (t : TableM) : List (String × SqlStmt) :=
  (t.attrs.filter (fun a => a.attr.db_index)).map
    (fun a => (indexName t.db_table a.slug,
      SqlStmt.createIndex t.db_table a.slug a.attr.db_cast))

/-- `Constraint.name` (storage.py lines 593-602). -/
def constraintName (db_table slug : String) : String :=
  "ju_validate__" ++ db_table ++ "__" ++ slug

/-- `Constraint.sql_tmpl` (storage.py lines 619-630): the int
non-negativity check for int-like attributes, the text minimum-length
check for text attributes, the bare not-null check otherwise. -/
def constraintStmt (db_table : String) (a : AttrDescr) : SqlStmt :=
  if a.attr.is_int then SqlStmt.addConstraintInt db_table a.slug
  else if a.attr.is_text then
    SqlStmt.addConstraintText db_table a.slug a.attr.minlen
  else SqlStmt.addConstraintNotNull db_table a.slug

/-- `Table.constraints` (storage.py lines 453-463): one check
constraint per attribute with `db_not_null` set. -/
def TableM.constraintItems (t : TableM) : List (String × SqlStmt) :=
  (t.attrs.filter (fun a => a.attr.db_not_null)).map
    (fun a => (constraintName t.db_table a.slug, constraintStmt t.db_table a))

/-- `Table.state_values` (storage.py line 373): the category order that
`Table.items` and the sync passes walk. -/
def TableM.state_values : List String :=
  [("tables"), ("views"), ("triggers"), ("indices"), ("constraints")]

/-- Introspected catalog state (`jukoro.pg.introspect.State`,
introspect.py lines 190-243): one name set per category, modelled as
lists with set-like removal. -/
structure State where
  schemas : List String
  sequences : List String
  tables : List String
  views : List String
  triggers : List String
  indices : List String
  constraints : List String
deriving DecidableEq

/-- The empty catalog state (a database with nothing in the target
schema). -/
def State.empty : State := ⟨[], [], [], [], [], [], []⟩

/-- Python `getattr(state, name)` through `State.__getattr__`
(introspect.py lines 242-243). -/
def stateGet (s : State) : String → List String
  | "schemas" => s.schemas
  | "sequences" => s.sequences
  | "tables" => s.tables
  | "views" => s.views
  | "triggers" => s.triggers
  | "indices" => s.indices
  | "constraints" => s.constraints
  | _ => []

/-- `StateValues.pop` (introspect.py lines 210-220): set-like discard
of a name from a category. -/
def svPop (l : List String) (k : String) : List String :=
  l.filter (fun n => n != k)

/-- One category pass of `_to_create` (storage.py lines 773-779): walk
the items of the category; an item whose name is absent from the
current state has its sql emitted, an item whose name is present is
popped from the state instead. -/
def toCreatePass (items : List (String × SqlStmt)) (cur : List String) :
    List SqlStmt × List String :=
  items.foldl
    (fun acc it =>
      if it.1 ∈ acc.2 then (acc.1, svPop acc.2 it.1)
      else (acc.1 ++ [it.2], acc.2))
    ([], cur)

/-- `_to_create` (storage.py lines 760-779): the category passes in the
`state_values` order (tables, views, triggers, indices, constraints),
each one mutating its category of the state. -/
def _to_create (t : TableM) (s : State) : List SqlStmt × State :=
  let r1 := toCreatePass t.tableItems s.tables
  let r2 := toCreatePass t.viewItems s.views
  let r3 := toCreatePass t.triggerItems s.triggers
  let r4 := toCreatePass t.indexItems s.indices
  let r5 := toCreatePass t.constraintItems s.constraints
  (r1.1 ++ r2.1 ++ r3.1 ++ r4.1 ++ r5.1,
   { s with tables := r1.2, views := r2.2, triggers := r3.2,
            indices := r4.2, constraints := r5.2 })

/-- The underscore character (used to split constraint names). -/
def usc : Char := Char.ofNat 95

/-- Python `split('__')` on a character list: greedy left-to-right,
non-overlapping, empty pieces kept. -/
def splitUU : List Char → List (List Char)
  | c1 :: c2 :: rest =>
      if c1 = usc ∧ c2 = usc then [] :: splitUU rest
      else
        match splitUU (c2 :: rest) with
        | [] => [[c1]]
        | h :: t => (c1 :: h) :: t
  | [c] => [[c]]
  | [] => [[]]

/-- Python `name.split('__')` on strings. -/
def strSplitUU (s : String) : List String :=
  (splitUU s.data).map (fun cs => String.mk cs)

/-- The table-name recovery for a constraint drop (storage.py line
812): `'__'.join(it.split('__')[1:-1])`. -/
def constraintTableOf (it : String) : String :=
  String.intercalate ("__") (((strSplitUU it).drop 1).dropLast)

/-- Python `name.startswith('ju')` (storage.py line 808). -/
def startsJu (s : String) : Bool :=
  ("ju").data.isPrefixOf s.data

/-- The `DROPS` statement for a category applied to a leftover name
(storage.py lines 782-787 and 810-813): indices, tables and views drop
by name; a constraint drop recovers its table name from the constraint
name. -/
def dropStmt (cat it : String) : SqlStmt :=
  if cat = ("indices") then SqlStmt.dropIndex it
  else if cat = ("tables") then SqlStmt.dropTable it
  else if cat = ("views") then SqlStmt.dropView it
  else SqlStmt.dropConstraint (constraintTableOf it) it

/-- `_to_drop` (storage.py lines 790-813): walk the categories in
reversed `state_values` order, skip triggers entirely, skip an index or
constraint name that does not start with the `ju` system prefix, and
emit the category's drop statement for every remaining name. -/
def _to_drop (s : State) : List SqlStmt :=
  TableM.state_values.reverse.flatMap (fun name =>
    if name = ("triggers") then []
    else
      (stateGet s name).filterMap (fun it =>
        if (name = ("indices") || name = ("constraints")) && !(startsJu it)
        then Option.none
        else some (dropStmt name it)))

/-- The process-wide registry `_registry` (storage.py line 699): an
ordered dict from table name to wrapped `Table`. -/
abbrev Registry := List (String × TableM)

/-- The key set of the registry. -/
def regKeys (reg : Registry) : List String := reg.map (fun p => p.1)

/-- `Table(entity_class)` as stored by `register`: the table name and
the sorted attribute iteration of the class. -/
def TableM.ofClass (k : EntityClass) (tn : String) : TableM :=
  ⟨tn, EntityClass.attrs k⟩

/-- `jukoro.pg.storage.register` (storage.py lines 702-718): reads
`entity_class.db_table.name` (an `AttributeError` when the class has no
table), raises the distinct `AlreadyRegistered` error when the name is
taken, and otherwise appends the wrapped class to the registry. -/
def register (reg : Registry) (k : EntityClass) : Except PyErr Registry :=
  match k.db_table with
  | Option.none => Except.error (PyErr.attributeError ("db_table"))
  | some tn =>
      if tn ∈ regKeys reg then
        Except.error (PyErr.alreadyRegistered
          ("Model for \"" ++ tn ++ "\" already registered"))
      else Except.ok (reg ++ [(tn, TableM.ofClass k tn)])

/-- The base `entity` table name `ET` (storage.py line 72). -/
def ET : String := "entity"

/-- `_syncdb` (storage.py lines 816-847) with the introspection result
passed in: emit the schema-creation script when the schema is missing,
clear the schemas and sequences categories, pop the base `entity` table,
run `_to_create` for every registered table in registration order, and
finish with `_to_drop` on what remains. The generator's two sides of
the `CUT` sentinel are returned as the (create, drop) statement
lists that `syncdb` joins. -/
def _syncdb (schema_name : String) (state : State) (reg : Registry) :
    List SqlStmt × List SqlStmt :=
  let pre := if schema_name ∈ state.schemas then []
             else [SqlStmt.initSchema schema_name]
  let state1 :=
    { state with schemas := [], sequences := [],
                 tables := svPop state.tables ET }
  let r := reg.foldl
    (fun acc p =>
      let c := _to_create p.2 acc.2
      (acc.1 ++ c.1, c.2))
    (([] : List SqlStmt), state1)
  (pre ++ r.1, _to_drop r.2)

/-- Modelled from the spec: the effect on the introspected catalog of
executing one emitted statement (execution context and database are the
external collaborators of spec sections 1 and 6). The statements' SQL
text fixes the created and dropped object names: the `INIT_SCHEMA`
script creates the schema, the base `entity` table and its primary-key
index and constraint (the shared sequence lives in the `public` schema,
outside the introspected one); `CREATE_TABLE` creates the table, its
primary-key index and constraint, and the two built-in indices
`ju_idx__<t>__doc` and `ju_idx__<t>__entity_id` its template contains
(storage.py lines 136-148); the remaining creates add exactly their
named object; the drops remove it. Auto-generated not-null constraint
names are omitted (they carry no `ju` prefix and are never matched nor
dropped). -/
def applyStmt (s : State) : SqlStmt → State
  | SqlStmt.initSchema name =>
      { s with schemas := s.schemas ++ [name],
               tables := s.tables ++ [ET],
               indices := s.indices ++ ["entity_pkey"],
               constraints := s.constraints ++ ["entity_pkey"] }
  | SqlStmt.createTable tn =>
      { s with tables := s.tables ++ [tn],
               indices := s.indices ++
                 ["ju_idx__" ++ tn ++ "__doc",
                  "ju_idx__" ++ tn ++ "__entity_id", tn ++ "_pkey"],
               constraints := s.constraints ++ [tn ++ "_pkey"] }
  | SqlStmt.createView _ v => { s with views := s.views ++ [v] }
  | SqlStmt.createTrigger suf _ v =>
      { s with triggers := s.triggers ++ [triggerName v suf] }
  | SqlStmt.createIndex tn slug _ =>
      { s with indices := s.indices ++ [indexName tn slug] }
  | SqlStmt.addConstraintInt tn slug =>
      { s with constraints := s.constraints ++ [constraintName tn slug] }
  | SqlStmt.addConstraintText tn slug _ =>
      { s with constraints := s.constraints ++ [constraintName tn slug] }
  | SqlStmt.addConstraintNotNull tn slug =>
      { s with constraints := s.constraints ++ [constraintName tn slug] }
  | SqlStmt.dropIndex n => { s with indices := svPop s.indices n }
  | SqlStmt.dropTable n => { s with tables := svPop s.tables n }
  | SqlStmt.dropView n => { s with views := svPop s.views n }
  | SqlStmt.dropConstraint _ n =>
      { s with constraints := svPop s.constraints n }

/-- The declaration handed to `EntityMeta.__new__`: class name, base
classes, the `Attr`-valued members with their slugs, the remaining
member names of the class body (after `db_table` is popped), the
declared `db_table` value and the `skip_registry` flag. -/
structure ClassDecl where
  clsName : String
  bases : List EntityClass
  ownAttrs : List (String × Attr)
  otherMembers : List String
  db_table : Option String
  skip_registry : Bool

/-- The member-name keys of the class body dict after `db_table` is
popped (`dct` in entity.py line 102 onwards). -/
def ClassDecl.members (d : ClassDecl) : List String :=
  d.ownAttrs.map (fun p => p.1) ++ d.otherMembers

/-- Python attribute resolution for a slug on the class under
construction: the own declaration shadows the bases, which are searched
in order. -/
def resolveAttr (own : List (String × Attr)) (bases : List EntityClass)
    (slug : String) : Option Attr :=
  match own.find? (fun p => p.1 == slug) with
  | some p => some p.2
  | Option.none =>
      bases.findSome? (fun b =>
        (b.attrPairs.find? (fun a => a.slug == slug)).map (fun a => a.attr))

/-- The class built by `EntityMeta.__new__` once the checks have passed
(entity.py lines 116-129): own slugs extended with the slugs of every
base's `attrs` iteration, deduplicated into a set, each resolved to its
descriptor`; `db_table` is wrapped only when truthy. -/
def buildClass (d : ClassDecl) : EntityClass :=
  let own_slugs := d.ownAttrs.map (fun p => p.1)
  let slugs := own_slugs ++
    d.bases.flatMap (fun b => (EntityClass.attrs b).map (fun a => a.slug))
  let pairs := slugs.dedup.filterMap (fun s =>
    (resolveAttr d.ownAttrs d.bases s).map
      (fun a => (⟨s, a⟩ : AttrDescr)))
  let dbt := match d.db_table with
    | some tn => if tn = "" then Option.none else some tn
    | Option.none => Option.none
  ⟨d.clsName, d.clsName :: d.bases.flatMap (fun b => b.mro), pairs, dbt⟩

/-- `EntityMeta.__new__` (entity.py lines 100-133): rejects a declared
`attrs` member, rejects the reserved `_created`/`_updated`/`_deleted`
member names, rejects the reserved table name `entity`, builds the
class, and registers it (which may raise the distinct already-registered
error) unless `db_table` was absent or `skip_registry` is set. -/
def EntityMeta.new (reg : Registry) (d : ClassDecl) :
    Except PyErr (Registry × EntityClass) :=
  if ("attrs") ∈ d.members then
    Except.error (PyErr.attributeError
      ("\"attrs\" attribute is reserved, take another one"))
  else if d.members.any
      (fun m => m == "_created" || m == "_updated" || m == "_deleted") then
    Except.error (PyErr.attributeError
      ("\"_created\", \"_updated\" and \"_deleted\" have been reserved, take another names"))
  else if d.db_table = some ("entity") then
    Except.error (PyErr.attributeError
      ("\"entity\" table name is reserved, take another one"))
  else
    let klass := buildClass d
    if d.db_table.isSome && !d.skip_registry then
      match register reg klass with
      | Except.ok reg2 => Except.ok (reg2, klass)
      | Except.error e => Except.error e
    else Except.ok (reg, klass)

/-- The payload of `AbstractEntity.serialize` (entity.py lines
301-308): the dict `entity_id`/`doc` handed to `json.dumps`. The
JSON string codec itself is the external value-codec collaborator of
spec sections 1 and 6 and is modelled as the identity on this
structured payload; the same shape is what a result row of the
execution context carries. -/
structure EntityPayload where
  entity_id : Option Int
  doc : Doc

/-- `AbstractEntity.serialize` (entity.py lines 301-308) up to the
external string codec. -/
def AbstractEntity.serialize (e : AbstractEntity) : EntityPayload :=
  ⟨e.entity_id, e.doc⟩

/-- `AbstractEntity.deserialize` (entity.py lines 310-320):
`cls(**json.loads(value))`, reconstructing an instance of `cls` from
the decoded payload. -/
def AbstractEntity.deserialize (cls : EntityClass) (p : EntityPayload) :
    AbstractEntity :=
  AbstractEntity.init cls p.entity_id (some p.doc)

/-- `AbstractEntity.__eq__` (entity.py lines 322-336): comparing
against anything that is not an instance of `type(self)` raises
`RuntimeError`; otherwise the instances are equal iff their
`entity_id`s are equal and every declared attribute reads equal through
its accessor on both. -/
def AbstractEntity.eq (self other : AbstractEntity) :
    Except PyErr Bool :=
  let klass := self.cls
  if other.cls.mro.contains klass.clsName then
    Except.ok ((self.entity_id == other.entity_id) &&
      (EntityClass.attrs klass).all
        (fun a => attrGet a self == attrGet a other))
  else
    Except.error (PyErr.runtimeError ("Unable to compare types"))

/-- Whether every `db_not_null` attribute of the instance's class has a
value present in the document (the "all required attributes set"
premise of the round-trip property, spec section 8). -/
def requiredSet (e : AbstractEntity) : Bool :=
  (EntityClass.attrs e.cls).all
    (fun a => !a.attr.db_not_null || (dictGet e.doc a.slug).isSome)

/-- The query-builder target bound by `EntityMeta.__new__` (entity.py
lines 116-120): the live-view name, present only for a concrete class. -/
def qbuilderTarget (k : EntityClass) : Option String :=
  k.db_table.map (fun tn => tn ++ "__live")

/-- `AbstractEntity.save` (entity.py lines 266-287): with the execution
context modelled as a pure function from a query and parameters to the
returned row, choose `create` when `entity_id` is absent and `update`
otherwise, execute, and build a fresh instance of the class from the
returned row. The first component of the result is the receiver as it
stands after the call: the method body reads `self` but never assigns
to it, so it is returned unchanged. Accessing `qbuilder` on a class
without `db_table` raises (the attribute is `None`). -/
def AbstractEntity.save (self : AbstractEntity)
    (cursor : String → List QueryParam → EntityPayload) :
    Except PyErr (AbstractEntity × AbstractEntity) :=
  match qbuilderTarget self.cls with
  | Option.none => Except.error (PyErr.attributeError ("qbuilder"))
  | some target =>
      let qp := if self.entity_id = Option.none then
          QueryViewBuilder.create target [self]
        else QueryViewBuilder.update target [self]
      let res := cursor qp.1 qp.2
      Except.ok (self, AbstractEntity.init self.cls res.entity_id (some res.doc))

/-- Substring occurrence on strings, stated on the underlying character
lists. -/
def hasSub (s sub : String) : Prop :=
  ∃ a b : List Char, s.data = a ++ sub.data ++ b

/-- The base `AbstractEntity` class as a constructed type: no
attributes, no table. -/
def baseEntityClass : EntityClass :=
  ⟨("AbstractEntity"), [("AbstractEntity")], [], Option.none⟩

/-- Concrete fixture: a text `username` attribute (ordinal 0). -/
def egAttrUsername : Attr :=
  (Attr.new ⟨true, ValueType.unicode, true, ("Username"), 0, 4, Option.none⟩ 0).1

/-- Concrete fixture: an int `age` attribute (ordinal 1). -/
def egAttrAge : Attr :=
  (Attr.new ⟨true, ValueType.int, true, ("Age"), 0, 0, Option.none⟩ 1).1

/-- Concrete fixture: a text `nick` attribute (ordinal 2). -/
def egAttrNick : Attr :=
  (Attr.new ⟨false, ValueType.unicode, false, ("Nick"), 0, 0, Option.none⟩ 2).1

/-- Concrete fixture: the declaration of a `User` entity type with
table `ju_user` and two attributes. -/
def egUserDecl : ClassDecl :=
  ⟨("User"), [baseEntityClass],
   [(("username"), egAttrUsername), (("age"), egAttrAge)], [],
   some ("ju_user"), false⟩

/-- The `User` class built from its declaration. -/
def egUserClass : EntityClass := buildClass egUserDecl

/-- Concrete fixture: an `Admin` subtype of `User` adding one
attribute. -/
def egAdminDecl : ClassDecl :=
  ⟨("Admin"), [egUserClass], [(("nick"), egAttrNick)], [],
   some ("ju_admin"), false⟩

/-- The `Admin` class built from its declaration. -/
def egAdminClass : EntityClass := buildClass egAdminDecl

/-- Concrete fixture: a second declaration that reuses the `ju_user`
table name. -/
def egDupDecl : ClassDecl :=
  ⟨("User2"), [baseEntityClass], [], [], some ("ju_user"), false⟩

/-- Concrete fixture: a declaration that redeclares the reserved
`_created` member. -/
def egBadMemberDecl : ClassDecl :=
  ⟨("Bad"), [baseEntityClass], [], [("_created")], some ("ju_bad"), false⟩

/-- Concrete fixture: a declaration using the reserved table name. -/
def egBadTableDecl : ClassDecl :=
  ⟨("Bad2"), [baseEntityClass], [], [], some ("entity"), false⟩

/-- Concrete fixture: a persisted `User` instance with all required
attributes set. -/
def egUser : AbstractEntity :=
  ⟨egUserClass, some 7,
   [(("username"), PyScalar.str ("joe")), (("age"), PyScalar.int 30)]⟩

/-- Concrete fixture: an execution context returning a fixed row. -/
def egCursor : String → List QueryParam → EntityPayload :=
  fun _ _ => ⟨some 8, [(("username"), PyScalar.str ("joe"))]⟩

/-- The query chosen by `save`: `create` for an unsaved instance,
`update` for a persisted one (entity.py lines 280-284). -/
def saveQuery (self : AbstractEntity) (target : String) :
    String × List QueryParam :=
  if self.entity_id = Option.none then QueryViewBuilder.create target [self]
  else QueryViewBuilder.update target [self]

/-- The registry of the C1 scenario: one registered type with table
`t` and no attributes. -/
def c1Reg : Registry := [(("t"), (⟨("t"), []⟩ : TableM))]

/-- First sync run of the C1 scenario, against an empty catalog. -/
def c1Run1 : List SqlStmt × List SqlStmt := _syncdb ("s") State.empty c1Reg

/-- The catalog after applying both emitted batches of the first run. -/
def c1State2 : State := (c1Run1.1 ++ c1Run1.2).foldl applyStmt State.empty

/-- Second sync run of the C1 scenario, with no schema changes in
between. -/
def c1Run2 : List SqlStmt × List SqlStmt := _syncdb ("s") c1State2 c1Reg

theorem find?_filter_of_key (P : String → Bool) (k : String)
    (hk : P k = true) (kw : List (String × OptVal)) :
    (kw.filter (fun p => P p.1)).find? (fun p => p.1 == k) =
      kw.find? (fun p => p.1 == k) := by
  induction kw with
  | nil => rfl
  | cons p rest ih =>
    by_cases hpk : p.1 = k
    · have hP : P p.1 = true := by rw [hpk]; exact hk
      simp [List.filter, hP, List.find?, hpk, hk]
    · have hne : (p.1 == k) = false := by
        simp [hpk]
      by_cases hP : P p.1 = true
      · simp [List.filter, hP, List.find?, hne, ih]
      · simp at hP
        simp [List.filter, hP, List.find?, hne, ih]

theorem filter_key_comm (P : String → Bool) (k : String)
    (kw : List (String × OptVal)) :
    (kw.filter (fun p => P p.1)).filter (fun q => q.1 != k) =
      (kw.filter (fun q => q.1 != k)).filter (fun p => P p.1) := by
  rw [List.filter_filter, List.filter_filter]
  exact List.filter_congr (fun a _ => Bool.and_comm _ _)

theorem pyPop_filter (P : String → Bool) (k : String) (hk : P k = true)
    (dflt : OptVal) (kw : List (String × OptVal)) :
    pyPop (kw.filter (fun p => P p.1)) k dflt =
      ((pyPop kw k dflt).1, (pyPop kw k dflt).2.filter (fun p => P p.1)) := by
  unfold pyPop
  rw [find?_filter_of_key P k hk kw]
  cases h : kw.find? (fun p => p.1 == k) with
  | none => rfl
  | some p => simp [filter_key_comm P k kw]

theorem attrInit_ignores_unrecognised (kwargs : List (String × OptVal))
    (c : Nat) :
    Attr.init kwargs c =
      Attr.init (kwargs.filter (fun p => recognisedOpts.contains p.1)) c := by
  have h1 := pyPop_filter (fun s => recognisedOpts.contains s) ("db_index")
    (by decide)
  have h2 := pyPop_filter (fun s => recognisedOpts.contains s) ("value_type")
    (by decide)
  have h3 := pyPop_filter (fun s => recognisedOpts.contains s) ("db_not_null")
    (by decide)
  have h4 := pyPop_filter (fun s => recognisedOpts.contains s) ("title")
    (by decide)
  have h5 := pyPop_filter (fun s => recognisedOpts.contains s) ("maxlen")
    (by decide)
  have h6 := pyPop_filter (fun s => recognisedOpts.contains s) ("minlen")
    (by decide)
  have h7 := pyPop_filter (fun s => recognisedOpts.contains s) ("wrapper")
    (by decide)
  simp only [Attr.init]
  rw [h1, h2, h3, h4, h5, h6, h7]

/-- C9 counterexample: constructing an `Attr` with the unrecognised
keyword option `frobnicate` raises nothing — it returns exactly the
same attribute, with all defaults, as construction with no options at
all, so the claimed construction error does not occur. -/
theorem C9_counterexample :
    Attr.init [(("frobnicate"), OptVal.n 7)] 0 = Attr.init [] 0 := rfl

/-- C9 (amended): `Attr.__init__` never raises on unknown keyword
options; it silently ignores them — the construction result on any
kwargs equals the result on just the recognised entries
(`db_index`, `value_type`, `db_not_null`, `title`, `maxlen`, `minlen`,
`wrapper`). -/
theorem C9_unknown_options_ignored (kwargs : List (String × OptVal))
    (c : Nat) :
    Attr.init kwargs c =
      Attr.init (kwargs.filter (fun p => recognisedOpts.contains p.1)) c :=
  attrInit_ignores_unrecognised kwargs c

theorem byIdStr (target whereLit : String) :
    ("SELECT " ++ QueryViewBuilder.fields ++ " FROM \"") ++ target ++
      whereLit =
    ("SELECT \"entity_id\",\"doc\" FROM \"") ++ target ++ whereLit := by
  have h : ("SELECT " ++ QueryViewBuilder.fields ++ " FROM \"") =
      ("SELECT \"entity_id\",\"doc\" FROM \"") := by decide
  rw [h]

theorem hasSub_parts (A t B B1 B2 sub : String)
    (h : B = B1 ++ (sub ++ B2)) : hasSub (A ++ t ++ B) sub := by
  refine ⟨(A ++ t ++ B1).data, B2.data, ?_⟩
  subst h
  simp [String.data_append, List.append_assoc]

/-- C3: the `by_id` query builder. A single truthy id yields the `=`
predicate with the id as the sole parameter; two or more truthy ids
yield the `IN` predicate with one parameter holding the tuple of ids;
both orderings are by `"entity_id"` ascending; no ids or any falsy id
raises `ValueError` before any SQL is built. -/
theorem C3_by_id_queries :
    (∀ (target : String) (i : PyScalar), pyTruthy i = true →
      QueryViewBuilder.by_id target [i] =
        Except.ok ((("SELECT \"entity_id\",\"doc\" FROM \"") ++ target ++
          ("\" WHERE \"entity_id\" = %s ORDER BY \"entity_id\" ASC;")),
          [QueryParam.scalar i])
      ∧ hasSub (("SELECT \"entity_id\",\"doc\" FROM \"") ++ target ++
          ("\" WHERE \"entity_id\" = %s ORDER BY \"entity_id\" ASC;"))
          ("WHERE \"entity_id\" = %s")
      ∧ hasSub (("SELECT \"entity_id\",\"doc\" FROM \"") ++ target ++
          ("\" WHERE \"entity_id\" = %s ORDER BY \"entity_id\" ASC;"))
          ("ORDER BY \"entity_id\" ASC;"))
    ∧ (∀ (target : String) (ids : List PyScalar), 2 ≤ ids.length →
      ids.all pyTruthy = true →
      QueryViewBuilder.by_id target ids =
        Except.ok ((("SELECT \"entity_id\",\"doc\" FROM \"") ++ target ++
          ("\" WHERE \"entity_id\" IN %s ORDER BY \"entity_id\" ASC;")),
          [QueryParam.tuple ids])
      ∧ hasSub (("SELECT \"entity_id\",\"doc\" FROM \"") ++ target ++
          ("\" WHERE \"entity_id\" IN %s ORDER BY \"entity_id\" ASC;"))
          ("WHERE \"entity_id\" IN %s")
      ∧ hasSub (("SELECT \"entity_id\",\"doc\" FROM \"") ++ target ++
          ("\" WHERE \"entity_id\" IN %s ORDER BY \"entity_id\" ASC;"))
          ("ORDER BY \"entity_id\" ASC;"))
    ∧ (∀ (target : String) (ids : List PyScalar),
      (ids = [] ∨ ∃ i ∈ ids, pyTruthy i = false) →
      ∃ msg, QueryViewBuilder.by_id target ids =
        Except.error (PyErr.valueError msg)) := by
  refine ⟨?_, ?_, ?_⟩
  · intro target i hi
    refine ⟨?_, ?_, ?_⟩
    · have hc : (([i] : List PyScalar).isEmpty ||
          [i].any fun x => !(pyTruthy x)) = false := by simp [hi]
      unfold QueryViewBuilder.by_id
      rw [if_neg (by simp [hi])]
      refine congrArg Except.ok ?_
      rw [byIdStr]
      rfl
    · exact hasSub_parts _ _ _ ("\" ") (" ORDER BY \"entity_id\" ASC;") _
        (by decide)
    · exact hasSub_parts _ _ _ ("\" WHERE \"entity_id\" = %s ") ("") _
        (by decide)
  · intro target ids h2 hall
    have hlen1 : ¬(ids.length = 1) := by omega
    have hne : ids.isEmpty = false := by
      cases ids with
      | nil => simp at h2
      | cons a l => rfl
    have hany : (ids.any fun x => !(pyTruthy x)) = false := by
      rw [List.any_eq_false]
      intro x hx
      rw [List.all_eq_true] at hall
      simp [hall x hx]
    refine ⟨?_, ?_, ?_⟩
    · unfold QueryViewBuilder.by_id
      rw [if_neg (by simp [hne, hany])]
      simp only [if_neg hlen1]
      refine congrArg Except.ok ?_
      rw [byIdStr]
      rfl
    · exact hasSub_parts _ _ _ ("\" ") (" ORDER BY \"entity_id\" ASC;") _
        (by decide)
    · exact hasSub_parts _ _ _ ("\" WHERE \"entity_id\" IN %s ") ("") _
        (by decide)
  · intro target ids h
    have hcond : (ids.isEmpty || ids.any fun x => !(pyTruthy x)) = true := by
      rcases h with h | ⟨i, hi, hfi⟩
      · subst h; rfl
      · refine Bool.or_eq_true_iff.mpr (Or.inr ?_)
        rw [List.any_eq_true]
        exact ⟨i, hi, by simp [hfi]⟩
    refine ⟨("at least one \"entity_id\" must be defined to get instance"), ?_⟩
    unfold QueryViewBuilder.by_id
    rw [if_pos hcond]

/-- C3 witness: the literal examples of the spec — `by_id(12)` on view
`users__live` and `by_id(5, 6, 7)`, plus the empty-call error. -/
theorem C3_by_id_queries_witness :
    QueryViewBuilder.by_id ("users__live") [PyScalar.int 12] =
      Except.ok
        (("SELECT \"entity_id\",\"doc\" FROM \"users__live\" WHERE \"entity_id\" = %s ORDER BY \"entity_id\" ASC;"),
         [QueryParam.scalar (PyScalar.int 12)])
    ∧ QueryViewBuilder.by_id ("users__live")
        [PyScalar.int 5, PyScalar.int 6, PyScalar.int 7] =
      Except.ok
        (("SELECT \"entity_id\",\"doc\" FROM \"users__live\" WHERE \"entity_id\" IN %s ORDER BY \"entity_id\" ASC;"),
         [QueryParam.tuple [PyScalar.int 5, PyScalar.int 6, PyScalar.int 7]])
    ∧ (∃ msg, QueryViewBuilder.by_id ("users__live") [] =
        Except.error (PyErr.valueError msg)) := by
  refine ⟨?_, ?_, ?_⟩
  · exact ((C3_by_id_queries.1 ("users__live") (PyScalar.int 12)
      (by decide)).1).trans rfl
  · exact ((C3_by_id_queries.2.1 ("users__live")
      [PyScalar.int 5, PyScalar.int 6, PyScalar.int 7] (by decide)
      (by decide)).1).trans rfl
  · exact C3_by_id_queries.2.2 ("users__live") [] (Or.inl rfl)

/-- C10: `create` and `update` perform no argument validation — called
with zero entities they raise nothing and return a syntactically
malformed statement (`VALUES` immediately followed by `RETURNING`,
resp. an empty parenthesised `VALUES` list) with empty params, whereas
`by_id` and `delete` raise `ValueError` before building any SQL on
empty or id-less input. -/
theorem C10_no_validation_in_create_update :
    (∀ target : String, ∃ q : String,
      QueryViewBuilder.create target [] = (q, [])
      ∧ hasSub q ("VALUES  RETURNING"))
    ∧ (∀ target : String, ∃ q : String,
      QueryViewBuilder.update target [] = (q, [])
      ∧ hasSub q ("(VALUES  ) AS"))
    ∧ (∀ target : String, ∃ msg, QueryViewBuilder.by_id target [] =
        Except.error (PyErr.valueError msg))
    ∧ (∀ target : String, ∃ msg, QueryViewBuilder.delete target [] =
        Except.error (PyErr.valueError msg))
    ∧ (∀ (target : String) (es : List AbstractEntity),
        (∃ e ∈ es, e.entity_id = Option.none) →
        ∃ msg, QueryViewBuilder.delete target es =
          Except.error (PyErr.valueError msg)) := by
  refine ⟨?_, ?_, ?_, ?_, ?_⟩
  · intro target
    refine ⟨("INSERT INTO \"") ++ target ++
      ("\" (\"doc\") VALUES  RETURNING \"entity_id\",\"doc\";"), rfl, ?_⟩
    exact hasSub_parts _ _ _ ("\" (\"doc\") ") (" \"entity_id\",\"doc\";") _
      (by decide)
  · intro target
    refine ⟨("UPDATE \"") ++ target ++
      ("\" AS t SET \"doc\" = (v.\"doc\")::jsonb FROM (VALUES  ) AS v(\"entity_id\", \"doc\") WHERE v.\"entity_id\" = t.\"entity_id\" RETURNING t.\"entity_id\", t.\"doc\";"),
      rfl, ?_⟩
    exact hasSub_parts _ _ _
      ("\" AS t SET \"doc\" = (v.\"doc\")::jsonb FROM ")
      (" v(\"entity_id\", \"doc\") WHERE v.\"entity_id\" = t.\"entity_id\" RETURNING t.\"entity_id\", t.\"doc\";")
      _ (by decide)
  · intro target
    exact ⟨("at least one \"entity_id\" must be defined to get instance"),
      rfl⟩
  · intro target
    exact ⟨("All entities to delete must have \"entity_id\" defined"), rfl⟩
  · intro target es h
    obtain ⟨e, he, hid⟩ := h
    have hcond : ((es.filter instanceTruthy).isEmpty ||
        (es.filter instanceTruthy).any
          fun e => !(pyTruthy (optIdVal e.entity_id))) = true := by
      refine Bool.or_eq_true_iff.mpr (Or.inr ?_)
      rw [List.any_eq_true]
      refine ⟨e, List.mem_filter.mpr ⟨he, rfl⟩, ?_⟩
      rw [hid]
      rfl
    refine ⟨("All entities to delete must have \"entity_id\" defined"), ?_⟩
    unfold QueryViewBuilder.delete
    rw [if_pos hcond]

/-- C10 witness: the no-entity calls at a concrete target, and an
id-less delete. -/
theorem C10_no_validation_witness :
    (∃ q : String, QueryViewBuilder.create ("ju_user__live") [] = (q, [])
      ∧ hasSub q ("VALUES  RETURNING"))
    ∧ (∃ q : String, QueryViewBuilder.update ("ju_user__live") [] = (q, [])
      ∧ hasSub q ("(VALUES  ) AS"))
    ∧ (∃ msg, QueryViewBuilder.delete ("ju_user__live")
        [⟨egUserClass, Option.none, []⟩] =
        Except.error (PyErr.valueError msg)) := by
  refine ⟨C10_no_validation_in_create_update.1 ("ju_user__live"),
    C10_no_validation_in_create_update.2.1 ("ju_user__live"), ?_⟩
  exact C10_no_validation_in_create_update.2.2.2.2 ("ju_user__live")
    [⟨egUserClass, Option.none, []⟩] ⟨_, List.mem_singleton.mpr rfl, rfl⟩

theorem filterMap_if_neg_skip {β : Type} (p : String → Bool) (f : String → β)
    (l : List String) :
    l.filterMap (fun a => if !(p a) then Option.none else some (f a)) =
      (l.filter p).map f := by
  induction l with
  | nil => rfl
  | cons a t ih =>
    simp only [Bool.not_eq_true'] at ih ⊢
    by_cases h : p a = true
    · simp [List.filterMap_cons, List.filter_cons, h, ih]
    · have h2 : p a = false := by simpa using h
      simp [List.filterMap_cons, List.filter_cons, h2, ih]

theorem filterMap_some_all {β : Type} (f : String → β) (l : List String) :
    l.filterMap (fun a => some (f a)) = l.map f := by
  induction l with
  | nil => rfl
  | cons a t ih => simp [List.filterMap_cons, ih]

theorem to_drop_characterization (s : State) :
    _to_drop s =
      (s.constraints.filter startsJu).map
        (fun n => SqlStmt.dropConstraint (constraintTableOf n) n)
      ++ (s.indices.filter startsJu).map SqlStmt.dropIndex
      ++ s.views.map SqlStmt.dropView
      ++ s.tables.map SqlStmt.dropTable := by
  have h0 : _to_drop s =
      (s.constraints.filterMap (fun it =>
        if !(startsJu it) then Option.none
        else some (SqlStmt.dropConstraint (constraintTableOf it) it)))
      ++ ((s.indices.filterMap (fun it =>
        if !(startsJu it) then Option.none
        else some (SqlStmt.dropIndex it)))
      ++ ((s.views.filterMap (fun it => some (SqlStmt.dropView it)))
      ++ ((s.tables.filterMap (fun it => some (SqlStmt.dropTable it)))
      ++ []))) := rfl
  rw [h0, filterMap_if_neg_skip, filterMap_if_neg_skip, filterMap_some_all,
    filterMap_some_all]
  simp [List.append_assoc]

/-- C5: the drop phase emits, in the fixed category order constraints,
indices, views, tables, a drop statement for every name remaining in
those four categories of the actual state — except that an index or
constraint name without the `ju` system prefix is skipped — and the
result does not depend on the remaining triggers, which are never
dropped. -/
theorem C5_to_drop_order (s : State) :
    _to_drop s =
      (s.constraints.filter startsJu).map
        (fun n => SqlStmt.dropConstraint (constraintTableOf n) n)
      ++ (s.indices.filter startsJu).map SqlStmt.dropIndex
      ++ s.views.map SqlStmt.dropView
      ++ s.tables.map SqlStmt.dropTable
    ∧ (∀ tg : List String, _to_drop { s with triggers := tg } = _to_drop s) := by
  refine ⟨to_drop_characterization s, fun tg => ?_⟩
  rw [to_drop_characterization, to_drop_characterization]

/-- C1: sync is not idempotent. In the concrete scenario of one
registered type with table `t` and no attributes, starting from an
empty catalog: the first run emits a create batch (schema script,
table, view, three triggers) and an empty drop batch; after applying
both batches, the second run's create batch is empty, but its drop
batch drops the two system-prefixed indices `ju_idx__t__doc` and
`ju_idx__t__entity_id` that the first run's own `CREATE TABLE`
statement created — `_to_create` never lists them among the wanted
names, so `_to_drop` treats them as orphaned. -/
theorem C1_second_sync_run_drops_own_indices :
    c1Run1.1 =
      [SqlStmt.initSchema ("s"), SqlStmt.createTable ("t"),
       SqlStmt.createView ("t") ("t__live"),
       SqlStmt.createTrigger ("insert") ("t") ("t__live"),
       SqlStmt.createTrigger ("update") ("t") ("t__live"),
       SqlStmt.createTrigger ("delete") ("t") ("t__live")]
    ∧ c1Run1.2 = []
    ∧ c1Run2.1 = []
    ∧ c1Run2.2 = [SqlStmt.dropIndex ("ju_idx__t__doc"),
                  SqlStmt.dropIndex ("ju_idx__t__entity_id")] := by
  refine ⟨?_, ?_, ?_, ?_⟩ <;> decide

/-- C7: `save` never mutates the receiver. The call returns the
receiver unchanged together with a fresh instance built from the row
the execution context returned for the generated query, and that query
is `create` exactly when `entity_id` is absent and `update` otherwise. -/
theorem C7_save_never_mutates (self : AbstractEntity)
    (cursor : String → List QueryParam → EntityPayload) (tn : String)
    (h : self.cls.db_table = some tn) :
    AbstractEntity.save self cursor =
      Except.ok (self,
        AbstractEntity.init self.cls
          (cursor (saveQuery self (tn ++ ("__live"))).1
            (saveQuery self (tn ++ ("__live"))).2).entity_id
          (some (cursor (saveQuery self (tn ++ ("__live"))).1
            (saveQuery self (tn ++ ("__live"))).2).doc))
    ∧ (self.entity_id = Option.none →
        saveQuery self (tn ++ ("__live")) =
          QueryViewBuilder.create (tn ++ ("__live")) [self])
    ∧ (self.entity_id ≠ Option.none →
        saveQuery self (tn ++ ("__live")) =
          QueryViewBuilder.update (tn ++ ("__live")) [self]) := by
  refine ⟨?_, fun hn => by rw [saveQuery, if_pos hn],
    fun hn => by rw [saveQuery, if_neg hn]⟩
  unfold AbstractEntity.save qbuilderTarget
  rw [h]
  rfl

/-- C7 witness: saving the concrete persisted `User` instance through a
fixed execution context returns the untouched receiver and a fresh
instance carrying the returned row. -/
theorem C7_save_never_mutates_witness :
    AbstractEntity.save egUser egCursor =
      Except.ok (egUser,
        AbstractEntity.init egUserClass (some 8)
          (some [(("username"), PyScalar.str ("joe"))])) := by
  have h := (C7_save_never_mutates egUser egCursor ("ju_user") rfl).1
  exact h.trans rfl

/-- C6: serialization round-trip and structural equality. With the
string codec treated as the external collaborator it is,
`deserialize (serialize e)` compares equal to `e`; equality holds
exactly when the other instance is of the same (or a derived) type,
the `entity_id`s agree and every declared attribute reads equal on
both; comparing against an instance of an unrelated type raises
`RuntimeError`. -/
theorem C6_serialize_roundtrip (e oth : AbstractEntity)
    (hm : e.cls.clsName ∈ e.cls.mro) (hreq : requiredSet e = true) :
    AbstractEntity.eq e
      (AbstractEntity.deserialize e.cls (AbstractEntity.serialize e)) =
      Except.ok true
    ∧ (AbstractEntity.eq e oth = Except.ok true ↔
        (e.cls.clsName ∈ oth.cls.mro ∧ e.entity_id = oth.entity_id ∧
          ∀ a ∈ EntityClass.attrs e.cls, attrGet a e = attrGet a oth))
    ∧ (e.cls.clsName ∉ oth.cls.mro →
        ∃ msg, AbstractEntity.eq e oth =
          Except.error (PyErr.runtimeError msg)) := by
  refine ⟨?_, ?_, ?_⟩
  · have hc : e.cls.mro.contains e.cls.clsName = true := by
      simpa using hm
    unfold AbstractEntity.eq AbstractEntity.deserialize
      AbstractEntity.serialize AbstractEntity.init
    simp [hc, hm, List.all_eq_true]
  · by_cases hc : e.cls.clsName ∈ oth.cls.mro
    · have hc2 : oth.cls.mro.contains e.cls.clsName = true := by
        simpa using hc
      unfold AbstractEntity.eq
      simp [hc2, hc, List.all_eq_true]
    · have hc2 : oth.cls.mro.contains e.cls.clsName = false := by
        simpa using hc
      unfold AbstractEntity.eq
      simp [hc2, hc]
  · intro hc
    have hc2 : oth.cls.mro.contains e.cls.clsName = false := by
      simpa using hc
    refine ⟨("Unable to compare types"), ?_⟩
    unfold AbstractEntity.eq
    simp [hc2, hc]

/-- C6 witness: the round-trip and the unrelated-type error at the
concrete `User` fixture. -/
theorem C6_serialize_roundtrip_witness :
    AbstractEntity.eq egUser
      (AbstractEntity.deserialize egUserClass
        (AbstractEntity.serialize egUser)) = Except.ok true
    ∧ (∃ msg, AbstractEntity.eq egUser
        (⟨baseEntityClass, some 7, []⟩ : AbstractEntity) =
        Except.error (PyErr.runtimeError msg)) := by
  have h := C6_serialize_roundtrip egUser
    (⟨baseEntityClass, some 7, []⟩ : AbstractEntity) (by decide) (by decide)
  exact ⟨h.1, h.2.2 (by decide)⟩

/-- C2: entity type construction fails exactly on the declared
declaration errors. A reserved member name (`attrs`, `_created`,
`_updated`, `_deleted`) raises `AttributeError`; the table name
`entity` raises `AttributeError`; a successful construction of a
concrete type that does not opt out appends it to the registry exactly
once (its name was free before); a type that opts out via
`skip_registry` leaves the registry untouched; and declaring a second
type under an already-registered table name raises the distinct
already-registered error. -/
theorem C2_declaration_errors :
    (∀ (reg : Registry) (d : ClassDecl),
      (("attrs") ∈ d.members ∨ ("_created") ∈ d.members ∨
        ("_updated") ∈ d.members ∨ ("_deleted") ∈ d.members) →
      ∃ msg, EntityMeta.new reg d = Except.error (PyErr.attributeError msg))
    ∧ (∀ (reg : Registry) (d : ClassDecl), d.db_table = some ("entity") →
      ∃ msg, EntityMeta.new reg d = Except.error (PyErr.attributeError msg))
    ∧ (∀ (reg : Registry) (d : ClassDecl) (reg2 : Registry) (k : EntityClass)
        (tn : String),
      EntityMeta.new reg d = Except.ok (reg2, k) → d.db_table = some tn →
      tn ≠ "" → d.skip_registry = false →
      reg2 = reg ++ [(tn, TableM.ofClass k tn)] ∧ tn ∉ regKeys reg)
    ∧ (∀ (reg : Registry) (d : ClassDecl) (reg2 : Registry) (k : EntityClass),
      EntityMeta.new reg d = Except.ok (reg2, k) → d.skip_registry = true →
      reg2 = reg)
    ∧ (∀ (reg : Registry) (d : ClassDecl) (tn : String),
      ("attrs") ∉ d.members →
      (∀ m ∈ d.members,
        m ≠ ("_created") ∧ m ≠ ("_updated") ∧ m ≠ ("_deleted")) →
      d.db_table = some tn → tn ≠ ("entity") → tn ≠ "" →
      d.skip_registry = false → tn ∈ regKeys reg →
      ∃ msg, EntityMeta.new reg d =
        Except.error (PyErr.alreadyRegistered msg)) := by
  refine ⟨?_, ?_, ?_, ?_, ?_⟩
  · intro reg d h
    unfold EntityMeta.new
    by_cases h1 : ("attrs") ∈ d.members
    · rw [if_pos h1]
      exact ⟨_, rfl⟩
    · have h2 : (d.members.any fun m =>
          m == "_created" || m == "_updated" || m == "_deleted") = true := by
        rw [List.any_eq_true]
        rcases h with h | h | h | h
        · exact absurd h h1
        · exact ⟨_, h, by simp⟩
        · exact ⟨_, h, by simp⟩
        · exact ⟨_, h, by simp⟩
      rw [if_neg h1, if_pos h2]
      exact ⟨_, rfl⟩
  · intro reg d hd
    unfold EntityMeta.new
    by_cases h1 : ("attrs") ∈ d.members
    · rw [if_pos h1]
      exact ⟨_, rfl⟩
    · by_cases h2 : (d.members.any fun m =>
          m == "_created" || m == "_updated" || m == "_deleted") = true
      · rw [if_neg h1, if_pos h2]
        exact ⟨_, rfl⟩
      · rw [if_neg h1, if_neg h2, if_pos hd]
        exact ⟨_, rfl⟩
  · intro reg d reg2 k tn hok hd htn hskip
    have hbt : (buildClass d).db_table = some tn := by
      unfold buildClass
      rw [hd]
      simp [htn]
    unfold EntityMeta.new at hok
    split_ifs at hok with h1 h2 h3 h4
    · have hreg : register reg (buildClass d) =
          if tn ∈ regKeys reg then
            Except.error (PyErr.alreadyRegistered
              ("Model for \"" ++ tn ++ "\" already registered"))
          else
            Except.ok (reg ++ [(tn, TableM.ofClass (buildClass d) tn)]) := by
        unfold register
        rw [hbt]
      by_cases hmem : tn ∈ regKeys reg
      · rw [if_pos hmem] at hreg
        simp [hreg] at hok
      · rw [if_neg hmem] at hreg
        simp only [hreg, Except.ok.injEq, Prod.mk.injEq] at hok
        obtain ⟨hr, hk⟩ := hok
        subst hk
        exact ⟨hr.symm, hmem⟩
    · exfalso
      rw [hd, hskip] at h4
      simp at h4
  · intro reg d reg2 k hok hskip
    unfold EntityMeta.new at hok
    split_ifs at hok with h1 h2 h3 h4
    · exfalso
      rw [hskip] at h4
      simp at h4
    · simp only [Except.ok.injEq, Prod.mk.injEq] at hok
      exact hok.1.symm
  · intro reg d tn h1 hres hd hent htn hskip hmem
    have hany : (d.members.any fun m =>
        m == "_created" || m == "_updated" || m == "_deleted") = false := by
      rw [List.any_eq_false]
      intro m hm2
      obtain ⟨c1, c2, c3⟩ := hres m hm2
      simp [c1, c2, c3]
    have h3 : ¬(d.db_table = some ("entity")) := by
      rw [hd]
      simp [hent]
    have hb : (d.db_table.isSome && !d.skip_registry) = true := by
      rw [hd, hskip]
      rfl
    have hbt : (buildClass d).db_table = some tn := by
      unfold buildClass
      rw [hd]
      simp [htn]
    have hreg : register reg (buildClass d) =
        Except.error (PyErr.alreadyRegistered
          ("Model for \"" ++ tn ++ "\" already registered")) := by
      unfold register
      rw [hbt]
      exact if_pos hmem
    refine ⟨("Model for \"" ++ tn ++ "\" already registered"), ?_⟩
    unfold EntityMeta.new
    rw [if_neg h1, if_neg (by simp [hany]), if_neg h3, if_pos hb]
    simp [hreg]

theorem entityMetaNew_ok_class (reg : Registry) (d : ClassDecl)
    (reg2 : Registry) (k : EntityClass)
    (hok : EntityMeta.new reg d = Except.ok (reg2, k)) :
    k = buildClass d := by
  unfold EntityMeta.new at hok
  split_ifs at hok with h1 h2 h3 h4
  · cases hr : register reg (buildClass d) with
    | ok r =>
      simp only [hr, Except.ok.injEq, Prod.mk.injEq] at hok
      exact hok.2.symm
    | error e => simp [hr] at hok
  · simp only [Except.ok.injEq, Prod.mk.injEq] at hok
    exact hok.2.symm

theorem findSome_isSome {α β : Type} (f : α → Option β) (l : List α) (x : α)
    (hx : x ∈ l) (hfx : (f x).isSome) : (l.findSome? f).isSome := by
  induction l with
  | nil => cases hx
  | cons a t ih =>
    cases hfa : f a with
    | some b => simp [List.findSome?_cons, hfa]
    | none =>
      simp only [List.findSome?_cons, hfa]
      rcases List.mem_cons.mp hx with h | h
      · subst h
        rw [hfa] at hfx
        simp at hfx
      · exact ih h

theorem resolve_isSome_of_mem_base (own : List (String × Attr))
    (bases : List EntityClass) (slug : String)
    (h : ∃ b ∈ bases, ∃ p ∈ b.attrPairs, p.slug = slug) :
    (resolveAttr own bases slug).isSome := by
  unfold resolveAttr
  cases hf : own.find? (fun p => p.1 == slug) with
  | some p => rfl
  | none =>
    obtain ⟨b, hb, p, hp, hps⟩ := h
    refine findSome_isSome _ _ b hb ?_
    have hfind : (b.attrPairs.find? (fun a => a.slug == slug)).isSome := by
      rw [List.find?_isSome]
      exact ⟨p, hp, by simp [hps]⟩
    simp [Option.isSome_map, hfind]

theorem slug_mem_pairs (own : List (String × Attr))
    (bases : List EntityClass) (l : List String) (s : String) (hs : s ∈ l)
    (hres : (resolveAttr own bases s).isSome) :
    s ∈ (l.filterMap (fun s2 => (resolveAttr own bases s2).map
      (fun a => (⟨s2, a⟩ : AttrDescr)))).map (fun x => x.slug) := by
  induction l with
  | nil => cases hs
  | cons a t ih =>
    rcases List.mem_cons.mp hs with h | h
    · subst h
      obtain ⟨v, hv⟩ := Option.isSome_iff_exists.mp hres
      simp [List.filterMap_cons, hv]
    · cases hfa : (resolveAttr own bases a).map
          (fun v => (⟨a, v⟩ : AttrDescr)) with
      | none =>
        simp only [List.filterMap_cons, hfa]
        exact ih h
      | some x =>
        simp only [List.filterMap_cons, hfa, List.map_cons, List.mem_cons]
        exact Or.inr (ih h)

theorem buildClass_superset (d : ClassDecl) (b : EntityClass)
    (hb : b ∈ d.bases) (a : AttrDescr) (ha : a ∈ EntityClass.attrs b) :
    a.slug ∈ (EntityClass.attrs (buildClass d)).map (fun x => x.slug) := by
  have hpermb := List.perm_insertionSort
    (fun x y : AttrDescr => x.attr.idx ≤ y.attr.idx) b.attrPairs
  have haP : a ∈ b.attrPairs := by
    unfold EntityClass.attrs at ha
    exact hpermb.mem_iff.mp ha
  have hbp : (buildClass d).attrPairs =
      ((d.ownAttrs.map (fun p => p.1) ++
        d.bases.flatMap
          (fun b2 => (EntityClass.attrs b2).map (fun x => x.slug))).dedup).filterMap
        (fun s2 => (resolveAttr d.ownAttrs d.bases s2).map
          (fun v => (⟨s2, v⟩ : AttrDescr))) := rfl
  have hs : a.slug ∈ (d.ownAttrs.map (fun p => p.1) ++
      d.bases.flatMap
        (fun b2 => (EntityClass.attrs b2).map (fun x => x.slug))).dedup := by
    rw [List.mem_dedup]
    refine List.mem_append_right _ ?_
    rw [List.mem_flatMap]
    exact ⟨b, hb, List.mem_map.mpr ⟨a, ha, rfl⟩⟩
  have hres : (resolveAttr d.ownAttrs d.bases a.slug).isSome :=
    resolve_isSome_of_mem_base _ _ _ ⟨b, hb, a, haP, rfl⟩
  have hmem2 := slug_mem_pairs d.ownAttrs d.bases _ a.slug hs hres
  have hperm2 := (List.perm_insertionSort
    (fun x y : AttrDescr => x.attr.idx ≤ y.attr.idx)
    (buildClass d).attrPairs).map (fun x => x.slug)
  unfold EntityClass.attrs
  refine hperm2.mem_iff.mpr ?_
  rw [hbp]
  exact hmem2

/-- C8: ordinal stability. For a constructed entity type whose
aggregated attributes carry pairwise-distinct ordinals, the `attrs`
iteration is strictly increasing in `ordinal`; the iteration of a
subtype contains every slug of each of its bases' iterations; and
attribute construction draws ordinals from the monotonic counter —
a sequence of constructions from counter `c` carries exactly the
ordinals `c, c+1, …`, each assigned once and never reused. -/
theorem C8_ordinal_stability :
    (∀ (reg : Registry) (d : ClassDecl) (reg2 : Registry) (k : EntityClass),
      EntityMeta.new reg d = Except.ok (reg2, k) →
      (((k.attrPairs.map (fun a => a.attr.idx)).Nodup →
        List.Pairwise (fun a b => a.attr.idx < b.attr.idx)
          (EntityClass.attrs k))
      ∧ (∀ b ∈ d.bases, ∀ a ∈ EntityClass.attrs b,
          a.slug ∈ (EntityClass.attrs k).map (fun x => x.slug))))
    ∧ (∀ (opts : List AttrOpts) (c : Nat),
      (mkAttrs opts c).1.map Attr.idx = List.range' c opts.length ∧
      (mkAttrs opts c).2 = c + opts.length) := by
  constructor
  · intro reg d reg2 k hok
    have hk := entityMetaNew_ok_class reg d reg2 k hok
    constructor
    · intro hnd
      unfold EntityClass.attrs
      haveI : IsTotal AttrDescr (fun a b => a.attr.idx ≤ b.attr.idx) :=
        ⟨fun a b => Nat.le_total _ _⟩
      haveI : IsTrans AttrDescr (fun a b => a.attr.idx ≤ b.attr.idx) :=
        ⟨fun a b c hab hbc => le_trans hab hbc⟩
      have hsorted := List.sorted_insertionSort
        (fun a b : AttrDescr => a.attr.idx ≤ b.attr.idx) k.attrPairs
      have hperm := List.perm_insertionSort
        (fun a b : AttrDescr => a.attr.idx ≤ b.attr.idx) k.attrPairs
      have hnd2 : ((List.insertionSort
          (fun a b : AttrDescr => a.attr.idx ≤ b.attr.idx)
          k.attrPairs).map (fun a => a.attr.idx)).Nodup :=
        ((hperm.map (fun a => a.attr.idx)).symm).nodup hnd
      have hne := (List.pairwise_map.mp hnd2)
      exact (List.Pairwise.and hsorted hne).imp
        (fun h => lt_of_le_of_ne h.1 h.2)
    · intro b hb a ha
      rw [hk]
      exact buildClass_superset d b hb a ha
  · intro opts c
    induction opts generalizing c with
    | nil => simp [mkAttrs, List.range']
    | cons o t ih =>
      have h2 := ih (c + 1)
      constructor
      · simp [mkAttrs, Attr.new, List.range', h2.1]
      · simp [mkAttrs, Attr.new, h2.2]
        omega

/-- C2 witness: concrete declarations hitting each declaration error,
and the concrete successful registration. -/
theorem C2_declaration_errors_witness :
    (∃ msg, EntityMeta.new [] egBadMemberDecl =
      Except.error (PyErr.attributeError msg))
    ∧ (∃ msg, EntityMeta.new [] egBadTableDecl =
      Except.error (PyErr.attributeError msg))
    ∧ (∃ msg, EntityMeta.new
        [(("ju_user"), TableM.ofClass egUserClass ("ju_user"))] egDupDecl =
      Except.error (PyErr.alreadyRegistered msg)) := by
  refine ⟨?_, ?_, ?_⟩
  · exact C2_declaration_errors.1 [] egBadMemberDecl
      (Or.inr (Or.inl (by decide)))
  · exact C2_declaration_errors.2.1 [] egBadTableDecl rfl
  · exact C2_declaration_errors.2.2.2.2
      [(("ju_user"), TableM.ofClass egUserClass ("ju_user"))] egDupDecl
      ("ju_user") (by decide) (by decide) rfl (by decide) (by decide) rfl
      (by decide)

/-- C8 witness: the concrete `Admin` subtype of `User` has a strictly
increasing attrs iteration containing every slug of its parent's, and
two constructions from counter 5 carry the ordinals 5 and 6. -/
theorem C8_ordinal_stability_witness :
    List.Pairwise (fun a b => a.attr.idx < b.attr.idx)
      (EntityClass.attrs egAdminClass)
    ∧ (∀ a ∈ EntityClass.attrs egUserClass,
        a.slug ∈ (EntityClass.attrs egAdminClass).map (fun x => x.slug))
    ∧ (mkAttrs
        [⟨true, ValueType.unicode, true, ("Username"), 0, 4, Option.none⟩,
         ⟨true, ValueType.int, true, ("Age"), 0, 0, Option.none⟩] 5).1.map
        Attr.idx = [5, 6] := by
  have h := C8_ordinal_stability.1 [] egAdminDecl
    [(("ju_admin"), TableM.ofClass egAdminClass ("ju_admin"))]
    egAdminClass rfl
  refine ⟨h.1 (by decide), ?_, ?_⟩
  · intro a ha
    exact h.2 egUserClass (List.mem_singleton.mpr rfl) a ha
  · exact (C8_ordinal_stability.2
      [⟨true, ValueType.unicode, true, ("Username"), 0, 4, Option.none⟩,
       ⟨true, ValueType.int, true, ("Age"), 0, 0, Option.none⟩] 5).1.trans
      (by decide)

theorem exceptBind_ok {α β : Type} (a : α) (f : α → Except PyErr β) :
    (Except.ok a >>= f) = f a := rfl

theorem exceptBind_err {α β : Type} (e : PyErr) (f : α → Except PyErr β) :
    ((Except.error e : Except PyErr α) >>= f) = Except.error e := rfl

theorem exceptMap_ok {α β : Type} (f : α → β) (a : α) :
    Except.map f (Except.ok a : Except PyErr α) = Except.ok (f a) := rfl

theorem exceptMap_err {α β : Type} (f : α → β) (e : PyErr) :
    Except.map f (Except.error e : Except PyErr α) = Except.error e := rfl

theorem tripletLoop_eq (k : EntityClass)
    (ts : List (String × String × QueryParam)) (block : List String)
    (params : List QueryParam) :
    tripletLoop k ts block params =
      (mapME (entryM k) ts).map (fun es =>
        (block ++ es, params ++ ts.map (fun t => t.2.2))) := by
  induction ts generalizing block params with
  | nil => simp [tripletLoop, mapME, exceptMap_ok]
  | cons t rest ih =>
    cases ho : _transform_op t.2.1 with
    | error e =>
      simp [tripletLoop, entryM, mapME, ho, exceptBind_err, exceptMap_err]
    | ok opS =>
      cases ha : pygetattr k t.1 with
      | error e =>
        simp [tripletLoop, entryM, mapME, ho, ha, exceptBind_ok,
          exceptBind_err, exceptMap_err]
      | ok a =>
        simp only [tripletLoop, entryM, mapME, ho, ha, exceptBind_ok]
        rw [ih]
        cases hm : mapME (entryM k) rest with
        | error e => simp [exceptBind_err, exceptMap_err]
        | ok es => simp [exceptBind_ok, exceptMap_ok]

theorem condLoop_eq (k : EntityClass) (conds : List Cond)
    (phs : List String) (params : List QueryParam) :
    condLoop k conds phs params =
      (mapME (groupPredicate k) conds).map (fun rs =>
        (phs ++ rs.map (fun r => r.1),
         params ++ (rs.map (fun r => r.2)).flatten)) := by
  induction conds generalizing phs params with
  | nil => simp [condLoop, mapME, exceptMap_ok]
  | cons c rest ih =>
    cases c with
    | dict d =>
      simp only [condLoop, groupPredicate, mapME, exceptBind_ok]
      rw [ih]
      cases hm : mapME (groupPredicate k) rest with
      | error e => simp [exceptBind_err, exceptMap_err]
      | ok rs => simp [exceptBind_ok, exceptMap_ok]
    | triplets ts =>
      simp only [condLoop, groupPredicate, mapME]
      rw [tripletLoop_eq]
      cases he : mapME (entryM k) ts with
      | error e =>
        simp [exceptBind_err, exceptMap_err]
      | ok es =>
        simp only [exceptMap_ok, exceptBind_ok, List.nil_append]
        rw [ih]
        cases hm : mapME (groupPredicate k) rest with
        | error e => simp [exceptBind_err, exceptMap_err]
        | ok rs => simp [exceptBind_ok, exceptMap_ok]

theorem transform_conditions_eq (k : EntityClass) (conds : List Cond)
    (h : conds ≠ []) :
    _transform_conditions k conds =
      (mapME (groupPredicate k) conds).map (fun rs =>
        ((" WHERE ") ++ String.intercalate (" OR ") (rs.map (fun r => r.1)),
         (rs.map (fun r => r.2)).flatten)) := by
  unfold _transform_conditions
  rw [if_neg (by simp [h])]
  rw [condLoop_eq]
  cases hm : mapME (groupPredicate k) conds with
  | error e => simp [exceptBind_err, exceptMap_err]
  | ok rs => simp [exceptBind_ok, exceptMap_ok]

theorem transform_op_cases (op : String) :
    (∃ s, _transform_op op = Except.ok s) ∨
    (∃ m, _transform_op op = Except.error (PyErr.valueError m)) := by
  unfold _transform_op
  cases h : OPS.find? (fun p => p.1 == op) with
  | some p => exact Or.inl ⟨p.2, rfl⟩
  | none => exact Or.inr ⟨_, rfl⟩

theorem entryM_cases (k : EntityClass) (t : String × String × QueryParam)
    (hattr : (k.attrPairs.find? (fun a => a.slug == t.1)).isSome) :
    (∃ y, entryM k t = Except.ok y) ∨
    (∃ m, entryM k t = Except.error (PyErr.valueError m)) := by
  rcases transform_op_cases t.2.1 with ⟨s, hs⟩ | ⟨m, hm⟩
  · obtain ⟨a, ha⟩ := Option.isSome_iff_exists.mp hattr
    refine Or.inl ⟨tripletEntry t.1 a.attr.db_cast s, ?_⟩
    have hga : pygetattr k t.1 = Except.ok a.attr := by
      unfold pygetattr
      rw [ha]
    simp [entryM, hs, hga, exceptBind_ok]
  · refine Or.inr ⟨m, ?_⟩
    simp [entryM, hm, exceptBind_err]

theorem entryM_not_ok (k : EntityClass) (t : String × String × QueryParam)
    (hop : OPS.find? (fun p => p.1 == t.2.1) = Option.none) :
    ∀ y, entryM k t ≠ Except.ok y := by
  intro y
  unfold entryM _transform_op
  rw [hop]
  simp [exceptBind_err]

theorem mapME_cases {α β : Type} (f : α → Except PyErr β) (l : List α)
    (hf : ∀ x ∈ l, (∃ y, f x = Except.ok y) ∨
      (∃ m, f x = Except.error (PyErr.valueError m))) :
    (∃ r, mapME f l = Except.ok r) ∨
    (∃ m, mapME f l = Except.error (PyErr.valueError m)) := by
  induction l with
  | nil => exact Or.inl ⟨[], rfl⟩
  | cons a t ih =>
    rcases hf a (List.mem_cons_self a t) with ⟨y, hy⟩ | ⟨m, hm⟩
    · rcases ih (fun x hx => hf x (List.mem_cons_of_mem a hx)) with
        ⟨r, hr⟩ | ⟨m, hm⟩
      · exact Or.inl ⟨y :: r, by simp [mapME, hy, hr, exceptBind_ok]⟩
      · exact Or.inr ⟨m, by simp [mapME, hy, hm, exceptBind_ok,
          exceptBind_err]⟩
    · exact Or.inr ⟨m, by simp [mapME, hm, exceptBind_err]⟩

theorem mapME_ok_forall {α β : Type} (f : α → Except PyErr β) (l : List α)
    (r : List β) (h : mapME f l = Except.ok r) :
    ∀ x ∈ l, ∃ y, f x = Except.ok y := by
  induction l generalizing r with
  | nil => intro x hx; cases hx
  | cons a t ih =>
    intro x hx
    cases ha : f a with
    | error e => rw [mapME, ha, exceptBind_err] at h; cases h
    | ok b =>
      rw [mapME, ha, exceptBind_ok] at h
      cases hm : mapME f t with
      | error e => rw [hm, exceptBind_err] at h; cases h
      | ok bs =>
        rcases List.mem_cons.mp hx with hh | hh
        · subst hh; exact ⟨b, ha⟩
        · exact ih bs hm x hh

theorem groupPredicate_triplets_ok (k : EntityClass)
    (ts : List (String × String × QueryParam)) (r : String × List QueryParam)
    (h : groupPredicate k (Cond.triplets ts) = Except.ok r) :
    ∃ es, mapME (entryM k) ts = Except.ok es := by
  cases hm : mapME (entryM k) ts with
  | error e => rw [groupPredicate, hm, exceptBind_err] at h; cases h
  | ok es => exact ⟨es, rfl⟩

/-- C4: the `select` condition transform. The generated `WHERE` clause
is the `OR`-disjunction of the transformed groups with the parameters
appended in group order; a dict group is the single document-containment
predicate `("doc" @> %s)` contributing the dict as its one parameter; a
triplet group is the `AND`-conjunction of its entries with one
parameter per triplet; each entry casts the attribute through its
declared `db_cast` and compares with the translated operator against
one placeholder; and a triplet whose operator is unknown (with every
referenced attribute declared) makes the transform raise `ValueError`. -/
theorem C4_select_conditions :
    (∀ (k : EntityClass) (conds : List Cond), conds ≠ [] →
      _transform_conditions k conds =
        (mapME (groupPredicate k) conds).map (fun rs =>
          ((" WHERE ") ++ String.intercalate (" OR ")
            (rs.map (fun r => r.1)),
           (rs.map (fun r => r.2)).flatten)))
    ∧ (∀ (k : EntityClass) (d : Doc),
      groupPredicate k (Cond.dict d) =
        Except.ok (("(\"doc\" @> %s)"), [QueryParam.doc d]))
    ∧ (∀ (k : EntityClass) (ts : List (String × String × QueryParam))
        (es : List String), mapME (entryM k) ts = Except.ok es →
      groupPredicate k (Cond.triplets ts) =
        Except.ok ((("(") ++ String.intercalate (" AND ") es ++ (")")),
          ts.map (fun t => t.2.2)))
    ∧ (∀ (k : EntityClass) (t : String × String × QueryParam)
        (opS : String) (a : Attr),
      _transform_op t.2.1 = Except.ok opS → pygetattr k t.1 = Except.ok a →
      entryM k t = Except.ok (("(\"doc\"->>\x27") ++ t.1 ++ ("\x27)::") ++
        a.db_cast ++ (" ") ++ opS ++ (" %s")))
    ∧ (∀ (k : EntityClass) (conds : List Cond)
        (ts : List (String × String × QueryParam))
        (t : String × String × QueryParam),
      Cond.triplets ts ∈ conds → t ∈ ts →
      OPS.find? (fun p => p.1 == t.2.1) = Option.none →
      (∀ ts2 t2, Cond.triplets ts2 ∈ conds → t2 ∈ ts2 →
        (k.attrPairs.find? (fun a => a.slug == t2.1)).isSome) →
      ∃ msg, _transform_conditions k conds =
        Except.error (PyErr.valueError msg)) := by
  refine ⟨transform_conditions_eq, fun k d => rfl, ?_, ?_, ?_⟩
  · intro k ts es hes
    rw [groupPredicate, hes, exceptBind_ok]
  · intro k t opS a ho ha
    simp [entryM, ho, ha, exceptBind_ok, tripletEntry]
  · intro k conds ts t hts ht hop hattr
    have hne : conds ≠ [] := by
      intro hc
      subst hc
      cases hts
    have hgall : ∀ c ∈ conds,
        (∃ r, groupPredicate k c = Except.ok r) ∨
        (∃ m, groupPredicate k c = Except.error (PyErr.valueError m)) := by
      intro c hc
      cases c with
      | dict d => exact Or.inl ⟨_, rfl⟩
      | triplets ts2 =>
        have hf : ∀ t2 ∈ ts2, (∃ y, entryM k t2 = Except.ok y) ∨
            (∃ m, entryM k t2 = Except.error (PyErr.valueError m)) :=
          fun t2 ht2 => entryM_cases k t2 (hattr ts2 t2 hc ht2)
        rcases mapME_cases _ _ hf with ⟨r, hr⟩ | ⟨m, hm⟩
        · exact Or.inl ⟨_, by rw [groupPredicate, hr, exceptBind_ok]⟩
        · exact Or.inr ⟨m, by rw [groupPredicate, hm, exceptBind_err]⟩
    rcases mapME_cases _ _ hgall with ⟨rs, hrs⟩ | ⟨m, hm⟩
    · exfalso
      obtain ⟨r, hr⟩ := mapME_ok_forall _ _ _ hrs (Cond.triplets ts) hts
      obtain ⟨es, hes⟩ := groupPredicate_triplets_ok k ts r hr
      obtain ⟨y, hy⟩ := mapME_ok_forall _ _ _ hes t ht
      exact entryM_not_ok k t hop y hy
    · exact ⟨m, by rw [transform_conditions_eq k conds hne, hm, exceptMap_err]⟩

/-- C4 witness: the spec's literal select examples against the concrete
`User` class — a dict group, an `AND` triplet group with two cast
comparisons, and an unknown operator raising `ValueError`. -/
theorem C4_select_conditions_witness :
    _transform_conditions egUserClass
      [Cond.dict [(("status"), PyScalar.str ("active"))]] =
      Except.ok ((" WHERE (\"doc\" @> %s)"),
        [QueryParam.doc [(("status"), PyScalar.str ("active"))]])
    ∧ _transform_conditions egUserClass
      [Cond.triplets
        [(("age"), ("gte"), QueryParam.scalar (PyScalar.int 18)),
         (("age"), ("lt"), QueryParam.scalar (PyScalar.int 30))]] =
      Except.ok
        ((" WHERE ((\x22doc\x22->>\x27age\x27)::BIGINT >= %s AND (\x22doc\x22->>\x27age\x27)::BIGINT < %s)"),
         [QueryParam.scalar (PyScalar.int 18),
          QueryParam.scalar (PyScalar.int 30)])
    ∧ (∃ msg, _transform_conditions egUserClass
        [Cond.triplets
          [(("age"), ("between"), QueryParam.scalar (PyScalar.int 1))]] =
        Except.error (PyErr.valueError msg)) := by
  refine ⟨?_, ?_, ?_⟩
  · exact (C4_select_conditions.1 egUserClass _ (by simp)).trans rfl
  · exact (C4_select_conditions.1 egUserClass _ (by simp)).trans rfl
  · refine C4_select_conditions.2.2.2.2 egUserClass _ _
      (("age"), ("between"), QueryParam.scalar (PyScalar.int 1))
      (List.mem_singleton.mpr rfl) (List.mem_singleton.mpr rfl)
      (by decide) ?_
    intro ts2 t2 h2 ht2
    rw [List.mem_singleton] at h2
    injection h2 with h3
    subst h3
    rw [List.mem_singleton] at ht2
    subst ht2
    decide

/-- C5 witness: a concrete leftover state — the drop batch lists the
system-prefixed constraint, then the system-prefixed index, then the
view, then the table, skipping the trigger and the non-prefixed
index and constraint. -/
theorem C5_to_drop_order_witness :
    _to_drop
      (⟨[], [], [("old_table")], [("old__live")],
        [("ju_before__old__live__insert")],
        [("ju_idx__old__x_entity_start_entity_end"), ("entity_pkey")],
        [("ju_validate__old__x"), ("t_pkey")]⟩ : State) =
      [SqlStmt.dropConstraint ("old") ("ju_validate__old__x"),
       SqlStmt.dropIndex ("ju_idx__old__x_entity_start_entity_end"),
       SqlStmt.dropView ("old__live"),
       SqlStmt.dropTable ("old_table")] := by
  have h := (C5_to_drop_order
    (⟨[], [], [("old_table")], [("old__live")],
      [("ju_before__old__live__insert")],
      [("ju_idx__old__x_entity_start_entity_end"), ("entity_pkey")],
      [("ju_validate__old__x"), ("t_pkey")]⟩ : State)).1
  exact h.trans (by decide)
